import Mathlib

/-!
Shallow embedding of `src/main.rs` of `rust-md-to-pdf`: a small HTTP service
that converts markdown to PDF by (1) converting markdown to HTML via the
`comrak` library and a fixed HTML/CSS template, and (2) shelling out to the
external `wkhtmltopdf` tool through uniquely named temporary files.

Modelling decisions:
* The `comrak` `markdown_to_html` library call is out of scope of the
  repository (an external crate); it is modelled as an explicit function
  parameter `md2html : String → String`, which is the spec's view of it
  as a black-box pure function.
* Filesystem state is an association list from structured paths to byte
  contents; `std::fs::write`, `std::fs::read` and `std::fs::remove_file`
  become `fsWrite`, `fsRead` and `fsRemove`. A read succeeds exactly when
  the file is present; a removal in the model always succeeds (the source
  ignores removal errors with `let _ = ...`, so a failed removal is
  observationally the file remaining, which the model can also realise by
  starting from a filesystem that already holds other entries).
* `std::env::temp_dir()` and `Uuid::new_v4()` are environment inputs
  (`Env.tempDir`, `Env.uuid`): one `Env` describes one call's interaction
  with the outside world. `PathBuf` values of the shape
  `temp_dir.join(format!("{uuid}.{ext}"))` are modelled structurally as
  directory/stem/extension triples (a v4 UUID contains no dot, so
  `with_extension` replaces exactly the `ext` component).
* `std::process::Command::output()` is the oracle `Env.run`, mapping the
  full argument vector to `none` (spawn error, Rust `Err(_)`) or
  `some out` (Rust `Ok(output)` with exit status and captured stderr).
  The side effect of a successful `wkhtmltopdf` spawn on the output file
  is `Env.pdfBytes`: the bytes the tool leaves at the output path, or
  `none` when it leaves nothing there.
* Rust strings written to files are turned into bytes by `strBytes`
  (injective code-point encoding; the byte-level coding is irrelevant to
  every claim, only identity and presence of contents matter).
-/

deriving instance DecidableEq for Except

namespace MdToPdf

/-- A filesystem path, structured as directory, file-name stem and
extension; `temp_dir().join(format!("{uuid}.{ext}"))` has `dir = temp_dir`,
`stem = uuid`, `ext = ext`. -/
structure FilePath where
  dir : String
  stem : String
  ext : String
deriving DecidableEq

/-- Rust `PathBuf::with_extension`: replaces only the extension component. -/
def FilePath.withExt (p : FilePath) (e : String) : FilePath :=
  ⟨p.dir, p.stem, e⟩

/-- Rendering of a structured path back to the string Rust would pass on
the command line. -/
def pathStr (p : FilePath) : String :=
  p.dir ++ "/" ++ p.stem ++ "." ++ p.ext

/-- Scratch-directory filesystem state: an association list from paths to
byte contents. -/
abbrev FS := List (FilePath × List Nat)

/-- `std::fs::read`: first entry for the path, `none` when absent. -/
def fsRead : FS → FilePath → Option (List Nat)
  | [], _ => none
  | (q, c) :: rest, p => if q = p then some c else fsRead rest p

/-- `std::fs::remove_file`: drop every entry for the path. -/
def fsRemove : FS → FilePath → FS
  | [], _ => []
  | (q, c) :: rest, p => if q = p then fsRemove rest p else (q, c) :: fsRemove rest p

/-- `std::fs::write`: (over)write the file at the path. -/
def fsWrite (fs : FS) (p : FilePath) (c : List Nat) : FS :=
  (p, c) :: fsRemove fs p

/-- Injective encoding of a Rust string into file bytes. -/
def strBytes (s : String) : List Nat :=
  s.data.map Char.toNat

/-- Result of a successful `Command::output()` call: exit status (as the
Boolean `status.success()`) and captured standard error, already decoded
the way `String::from_utf8_lossy` presents it. -/
structure CmdOutput where
  success : Bool
  stderr : String
deriving DecidableEq

/-- One call's interaction with the outside world: the scratch directory
path, the freshly generated UUID, whether `fs::write` succeeds, the
subprocess oracle, and the bytes `wkhtmltopdf` leaves at the output path
(`none` when it leaves nothing readable). -/
structure Env where
  tempDir : String
  uuid : String
  writeOk : Bool
  run : List String → Option CmdOutput
  pdfBytes : Option (List Nat)

/-- Errors of the invoker, mirroring the `anyhow` error chain of
`html_to_pdf`: `IOFailure` carries the `.context(...)` message attached to
a failed I/O or spawn operation, `RenderFailure` carries the
`anyhow!("wkhtmltopdf failed: {stderr}")` message built on non-zero exit. -/
inductive RenderError where
  | IOFailure (msg : String)
  | RenderFailure (msg : String)
deriving DecidableEq

/-- `create_temp_file` of `src/main.rs`: builds
`temp_dir().join(format!("{}.{}", Uuid::new_v4(), extension))` and writes
`content` there; a write error is the I/O error propagated by `?`. -/
def create_temp_file (env : Env) (content : String) (extension : String) (fs : FS) :
    Except String (FilePath × FS) :=
  let file_path : FilePath := ⟨env.tempDir, env.uuid, extension⟩
  if env.writeOk then
    Except.ok (file_path, fsWrite fs file_path (strBytes content))
  else
    Except.error "write failed"

/-- The fixed argument vector `html_to_pdf` passes to `Command::new`. -/
def wkhtmltopdfArgs (src dst : FilePath) : List String :=
  ["wkhtmltopdf", "--page-size", "A4", "--dpi", "96", "--margin-top", "20mm",
   "--margin-bottom", "20mm", "--disable-smart-shrinking",
   "--enable-local-file-access", "--zoom", "1.0", "--print-media-type",
   "--no-background", pathStr src, pathStr dst]

/-- The source artifact path of a call: what `create_temp_file` allocates
for extension `"html"`. -/
def htmlPathOf (env : Env) : FilePath :=
  ⟨env.tempDir, env.uuid, "html"⟩

/-- The output artifact path of a call: `html_path.with_extension("pdf")`. -/
def pdfPathOf (env : Env) : FilePath :=
  (htmlPathOf env).withExt "pdf"

/-- `html_to_pdf` of `src/main.rs`, step by step:
write the HTML to a fresh temp file (context `Failed to create temporary
HTML file`), derive the sibling `.pdf` path, run `wkhtmltopdf` (spawn
error context `Failed to execute wkhtmltopdf`; a successful spawn deposits
`env.pdfBytes` at the output path), return a `RenderFailure` embedding the
captured stderr on non-zero exit, read the PDF back (context `Failed to
read generated PDF`), remove both temp files ignoring errors, and return
the bytes. The returned `FS` is the scratch directory after the call. -/
def html_to_pdf (env : Env) (html : String) (fs : FS) :
    Except RenderError (List Nat) × FS :=
  match create_temp_file env html "html" fs with
  | Except.error _ => (Except.error (RenderError.IOFailure "Failed to create temporary HTML file"), fs)
  | Except.ok (html_path, fs1) =>
    let pdf_path := html_path.withExt "pdf"
    match env.run (wkhtmltopdfArgs html_path pdf_path) with
    | none => (Except.error (RenderError.IOFailure "Failed to execute wkhtmltopdf"), fs1)
    | some output =>
      let fs2 := match env.pdfBytes with
        | some b => fsWrite fs1 pdf_path b
        | none => fs1
      if output.success then
        match fsRead fs2 pdf_path with
        | none => (Except.error (RenderError.IOFailure "Failed to read generated PDF"), fs2)
        | some pdf_content =>
          let fs3 := fsRemove fs2 html_path
          let fs4 := fsRemove fs3 pdf_path
          (Except.ok pdf_content, fs4)
      else
        (Except.error (RenderError.RenderFailure ("wkhtmltopdf failed: " ++ output.stderr)), fs2)

/-- The fixed document template of `markdown_to_html_converter`: everything
of the `format!` literal before the `{}` hole, with `{{` / `}}` unescaped.
Braces are written with `\x7b` / `\x7d` escapes; the text is otherwise the
byte-for-byte template of `src/main.rs`. -/
def htmlTemplateHead : String :=
  "<!DOCTYPE html>
<html>
<head>
    <meta charset=\"UTF-8\">
    <meta name=\"viewport\" content=\"width=device-width, initial-scale=1.0\">
    <title>Document</title>
    <style>
        @page \x7b
            size: A4;
            margin: 10mm;
        \x7d
        html \x7b
            font-size: 16pt !important;
            width: 210mm;  /* A4 width */
        \x7d
        body \x7b
            font-family: -apple-system, BlinkMacSystemFont, \"Segoe UI\", Roboto, \"Helvetica Neue\", Arial, sans-serif;
            line-height: 1.6;
            padding: 0 5em;
            font-size: 1rem !important;
            width: 100%;
            margin: 0;
            overflow-wrap: break-word;
            word-wrap: break-word;
            word-break: break-word;
        \x7d
        /* Force consistent sizes */
        p, div, span, li, td \x7b
            font-size: 1rem !important;
        \x7d
        h1 \x7b font-size: 1.4rem !important; \x7d
        h2 \x7b font-size: 1.2rem !important; \x7d
        h3 \x7b font-size: 1.1rem !important; \x7d
        h4, h5, h6 \x7b font-size: 1.1rem !important; \x7d
        /* Handle long URLs */
        a \x7b
            word-wrap: break-word;
            word-break: break-all;
            white-space: pre-wrap;
            overflow-wrap: break-word;
            max-width: 100%;
            display: inline-block;
        \x7d
    </style>
</head>
<body>
    "

/-- Everything of the `format!` literal after the `{}` hole. -/
def htmlTemplateTail : String :=
  "
</body>
</html>"

/-- `markdown_to_html_converter` of `src/main.rs`: runs the `comrak`
conversion (the function parameter `markdown_to_html`, applied the way the
source applies it with default options) and splices the result into the
fixed template. -/
def markdown_to_html_converter (markdown_to_html : String → String)
    (markdown : String) : String :=
  let content := markdown_to_html markdown
  htmlTemplateHead ++ content ++ htmlTemplateTail

/-- `pat` is a contiguous initial segment of the second list. -/
def charsStartWith : List Char → List Char → Bool
  | [], _ => true
  | _ :: _, [] => false
  | p :: ps, c :: cs => p == c && charsStartWith ps cs

/-- `pat` occurs contiguously somewhere in the second list. -/
def charsContain (pat : List Char) : List Char → Bool
  | [] => charsStartWith pat []
  | c :: cs => charsStartWith pat (c :: cs) || charsContain pat cs

/-- `pat` occurs as a substring of `s`. -/
def strContains (s pat : String) : Bool :=
  charsContain pat.data s.data

/-- Body of an HTTP response as the handlers build it: raw bytes
(`HttpResponse::Ok().body(...)`), a JSON document (`.json(...)`), or empty
(`.finish()`). -/
inductive Body where
  | bytes (b : List Nat)
  | json (s : String)
  | empty
deriving DecidableEq

/-- The observable parts of an `actix_web::HttpResponse` the handlers
construct: status code, content type, extra headers, body. -/
structure HttpResponse where
  status : Nat
  contentType : Option String
  headers : List (String × String)
  body : Body
deriving DecidableEq

/-- `convert_markdown_to_pdf` of `src/main.rs`: normalizes the markdown,
renders it, and answers 200 with the PDF bytes, an `application/pdf`
content type and an attachment disposition header on success, or an empty
500 on any render error (the error value is only logged, never placed in
the response). The outer `Except` mirrors the handler's
`actix_web::Result`; every path returns `Ok`. -/
def convert_markdown_to_pdf (markdown_to_html : String → String) (env : Env)
    (fs : FS) (markdown : String) : Except String HttpResponse × FS :=
  let html := markdown_to_html_converter markdown_to_html markdown
  match html_to_pdf env html fs with
  | (Except.ok pdf_bytes, fs1) =>
      (Except.ok { status := 200, contentType := some "application/pdf",
                   headers := [("Content-Disposition", "attachment; filename=\"document.pdf\"")],
                   body := Body.bytes pdf_bytes }, fs1)
  | (Except.error _, fs1) =>
      (Except.ok { status := 500, contentType := none, headers := [],
                   body := Body.empty }, fs1)

/-- The `HealthResponse` struct of `src/main.rs`. -/
structure HealthResponse where
  status : String
  version : String
deriving DecidableEq

/-- `serde_json` serialization of `HealthResponse` (no field value used by
the program needs escaping). Braces are written with `\x7b` / `\x7d`. -/
def serializeHealth (h : HealthResponse) : String :=
  "\x7b\"status\":\"" ++ h.status ++ "\",\"version\":\"" ++ h.version ++ "\"\x7d"

/-- The argument vector of the availability probe used by both
`health_check` and `main`: `wkhtmltopdf --version`. -/
def healthProbeArgs : List String := ["wkhtmltopdf", "--version"]

/-- `health_check` of `src/main.rs`: spawns `wkhtmltopdf --version`; any
`Ok(_)` outcome of `Command::output()` (the exit status is ignored) gives
200 `healthy`, an `Err(_)` (spawn failure) gives 503
`unhealthy - wkhtmltopdf not found`; both carry the crate version. -/
def health_check (run : List String → Option CmdOutput) (version : String) :
    Except String HttpResponse :=
  match run healthProbeArgs with
  | some _ =>
      Except.ok { status := 200, contentType := some "application/json", headers := [],
                  body := Body.json (serializeHealth ⟨"healthy", version⟩) }
  | none =>
      Except.ok { status := 503, contentType := some "application/json", headers := [],
                  body := Body.json (serializeHealth ⟨"unhealthy - wkhtmltopdf not found", version⟩) }

/-- Observable outcome of process startup: either the process exits with a
code after printing to stderr, or it binds the listener and serves the
routing table. -/
inductive StartOutcome where
  | exit (code : Nat) (stderrMsg : String)
  | serve (addr : String) (routes : List (String × String))
deriving DecidableEq

/-- The startup sequence of `main` in `src/main.rs`: probe
`wkhtmltopdf --version`; on spawn failure print an error to stderr and
`std::process::exit(1)` before any server construction; otherwise bind
`0.0.0.0:8080` and serve the two routes. -/
def mainStartup (run : List String → Option CmdOutput) : StartOutcome :=
  match run healthProbeArgs with
  | none => StartOutcome.exit 1 "Error: wkhtmltopdf is not installed. Please install it first."
  | some _ => StartOutcome.serve "0.0.0.0:8080" [("GET", "/health"), ("POST", "/convert")]

/-- The subprocess-oracle answer relevant to one call of `html_to_pdf`:
what `Command::output()` returns for the argument vector the call builds. -/
def runResult (env : Env) : Option CmdOutput :=
  env.run (wkhtmltopdfArgs (htmlPathOf env) (pdfPathOf env))

/-- Scratch directory right after a successful spawn of `wkhtmltopdf`:
the written HTML source plus whatever the tool left at the output path. -/
def fsAfterRun (env : Env) (html : String) (fs : FS) : FS :=
  match env.pdfBytes with
  | some b => fsWrite (fsWrite fs (htmlPathOf env) (strBytes html)) (pdfPathOf env) b
  | none => fsWrite fs (htmlPathOf env) (strBytes html)

/-- A call in which every external interaction succeeds; the tool leaves
the bytes `%PDF` at the output path. -/
def envSuccess : Env :=
  { tempDir := "/tmp", uuid := "job1", writeOk := true,
    run := (fun _ => some (CmdOutput.mk true "")), pdfBytes := some [37, 80, 68, 70] }

/-- A call in which `wkhtmltopdf` spawns but exits non-zero with stderr
`exit 1`, leaving no output file. -/
def envNonZero : Env :=
  { tempDir := "/tmp", uuid := "job2", writeOk := true,
    run := (fun _ => some (CmdOutput.mk false "exit 1")), pdfBytes := none }

/-- A call in which spawning `wkhtmltopdf` itself fails. -/
def envSpawnFail : Env :=
  { tempDir := "/tmp", uuid := "job3", writeOk := true,
    run := (fun _ => none), pdfBytes := none }

/-- A call in which writing the temporary HTML file fails. -/
def envWriteFail : Env :=
  { tempDir := "/tmp", uuid := "job4", writeOk := false,
    run := (fun _ => none), pdfBytes := none }

/-- A call in which the tool reports success but leaves nothing readable
at the output path, so the read-back fails. -/
def envReadFail : Env :=
  { tempDir := "/tmp", uuid := "job5", writeOk := true,
    run := (fun _ => some (CmdOutput.mk true "")), pdfBytes := none }

theorem fsRead_fsRemove_self (fs : FS) (p : FilePath) :
    fsRead (fsRemove fs p) p = none := by
  induction fs with
  | nil => rfl
  | cons e rest ih =>
    obtain ⟨q, c⟩ := e
    by_cases h : q = p
    · simp [fsRemove, h, ih]
    · simp [fsRemove, fsRead, h, ih]

theorem fsRead_fsRemove_ne (fs : FS) (p q : FilePath) (h : q ≠ p) :
    fsRead (fsRemove fs p) q = fsRead fs q := by
  induction fs with
  | nil => rfl
  | cons e rest ih =>
    obtain ⟨r, c⟩ := e
    by_cases hr : r = p
    · have hrq : r ≠ q := fun hh => h (hh ▸ hr)
      simp only [fsRemove, if_pos hr, fsRead, if_neg hrq, ih]
    · simp only [fsRemove, if_neg hr, fsRead, ih]

theorem fsRead_fsWrite_self (fs : FS) (p : FilePath) (c : List Nat) :
    fsRead (fsWrite fs p c) p = some c := by
  simp [fsWrite, fsRead]

theorem fsRead_fsWrite_ne (fs : FS) (p q : FilePath) (c : List Nat) (h : q ≠ p) :
    fsRead (fsWrite fs p c) q = fsRead fs q := by
  have hpq : p ≠ q := fun hh => h hh.symm
  simp only [fsWrite, fsRead, if_neg hpq]
  exact fsRead_fsRemove_ne fs p q h

theorem htmlPath_ne_pdfPath (env : Env) : htmlPathOf env ≠ pdfPathOf env := by
  intro h
  injection h with h1 h2 h3
  exact absurd h3 (by decide)

theorem fsRead_fsAfterRun_html (env : Env) (html : String) (fs : FS) :
    fsRead (fsAfterRun env html fs) (htmlPathOf env) = some (strBytes html) := by
  unfold fsAfterRun
  cases env.pdfBytes with
  | none => exact fsRead_fsWrite_self fs (htmlPathOf env) (strBytes html)
  | some b =>
    rw [fsRead_fsWrite_ne _ _ _ _ (htmlPath_ne_pdfPath env)]
    exact fsRead_fsWrite_self fs (htmlPathOf env) (strBytes html)

theorem html_to_pdf_eq_writeFail (env : Env) (html : String) (fs : FS)
    (hw : env.writeOk = false) :
    html_to_pdf env html fs =
      (Except.error (RenderError.IOFailure "Failed to create temporary HTML file"), fs) := by
  simp [html_to_pdf, create_temp_file, hw]

theorem html_to_pdf_eq_spawnFail (env : Env) (html : String) (fs : FS)
    (hw : env.writeOk = true) (hr : runResult env = none) :
    html_to_pdf env html fs =
      (Except.error (RenderError.IOFailure "Failed to execute wkhtmltopdf"),
       fsWrite fs (htmlPathOf env) (strBytes html)) := by
  obtain ⟨td, uid, wOk, run, pb⟩ := env
  simp only [runResult, htmlPathOf, pdfPathOf, FilePath.withExt] at hr
  subst hw
  simp [html_to_pdf, create_temp_file, FilePath.withExt, htmlPathOf, hr]

theorem html_to_pdf_eq_nonZero (env : Env) (html : String) (fs : FS) (out : CmdOutput)
    (hw : env.writeOk = true) (hr : runResult env = some out) (hs : out.success = false) :
    html_to_pdf env html fs =
      (Except.error (RenderError.RenderFailure ("wkhtmltopdf failed: " ++ out.stderr)),
       fsAfterRun env html fs) := by
  obtain ⟨td, uid, wOk, run, pb⟩ := env
  simp only [runResult, htmlPathOf, pdfPathOf, FilePath.withExt] at hr
  subst hw
  simp [html_to_pdf, create_temp_file, FilePath.withExt, htmlPathOf, pdfPathOf,
    fsAfterRun, hr, hs]

theorem html_to_pdf_eq_readFail (env : Env) (html : String) (fs : FS) (out : CmdOutput)
    (hw : env.writeOk = true) (hr : runResult env = some out) (hs : out.success = true)
    (hread : fsRead (fsAfterRun env html fs) (pdfPathOf env) = none) :
    html_to_pdf env html fs =
      (Except.error (RenderError.IOFailure "Failed to read generated PDF"),
       fsAfterRun env html fs) := by
  obtain ⟨td, uid, wOk, run, pb⟩ := env
  simp only [runResult, htmlPathOf, pdfPathOf, FilePath.withExt] at hr
  simp only [fsAfterRun, htmlPathOf, pdfPathOf, FilePath.withExt] at hread
  subst hw
  simp [html_to_pdf, create_temp_file, FilePath.withExt, htmlPathOf, pdfPathOf,
    fsAfterRun, hr, hs, hread]

theorem html_to_pdf_eq_success (env : Env) (html : String) (fs : FS) (out : CmdOutput)
    (b : List Nat)
    (hw : env.writeOk = true) (hr : runResult env = some out) (hs : out.success = true)
    (hread : fsRead (fsAfterRun env html fs) (pdfPathOf env) = some b) :
    html_to_pdf env html fs =
      (Except.ok b,
       fsRemove (fsRemove (fsAfterRun env html fs) (htmlPathOf env)) (pdfPathOf env)) := by
  obtain ⟨td, uid, wOk, run, pb⟩ := env
  simp only [runResult, htmlPathOf, pdfPathOf, FilePath.withExt] at hr
  simp only [fsAfterRun, htmlPathOf, pdfPathOf, FilePath.withExt] at hread
  subst hw
  simp [html_to_pdf, create_temp_file, FilePath.withExt, htmlPathOf, pdfPathOf,
    fsAfterRun, hr, hs, hread]

/-- C1 counterexample: with the external tool exiting non-zero (stderr
`exit 1`), a call that starts from an empty scratch directory ends with
the HTML source artifact still present — no removal is attempted on this
path, refuting the claim that cleanup happens regardless of outcome. -/
theorem c1_counterexample :
    fsRead ((html_to_pdf envNonZero "<p>hi</p>" []).2) (htmlPathOf envNonZero) =
      some (strBytes "<p>hi</p>") ∧
    (html_to_pdf envNonZero "<p>hi</p>" []).2 ≠ [] := by
  constructor
  · decide
  · decide

/-- C1 (amended): removal of the two temporary artifacts happens exactly on
the fully successful path — after a zero exit status and a successful
read-back, neither artifact remains; on every failure path after the source
artifact was written (spawn failure, non-zero exit, read-back failure) no
removal is attempted and the source artifact remains in the scratch
directory. -/
theorem c1_cleanup_only_on_success (env : Env) (html : String) (fs : FS) :
    (∀ b, (html_to_pdf env html fs).1 = Except.ok b →
       fsRead (html_to_pdf env html fs).2 (htmlPathOf env) = none ∧
       fsRead (html_to_pdf env html fs).2 (pdfPathOf env) = none) ∧
    (env.writeOk = true → ∀ e, (html_to_pdf env html fs).1 = Except.error e →
       fsRead (html_to_pdf env html fs).2 (htmlPathOf env) = some (strBytes html)) := by
  constructor
  · intro b hb
    by_cases hw : env.writeOk = true
    · cases hrun : runResult env with
      | none =>
        rw [html_to_pdf_eq_spawnFail env html fs hw hrun] at hb
        exact absurd hb (by simp)
      | some out =>
        by_cases hs : out.success = true
        · cases hread : fsRead (fsAfterRun env html fs) (pdfPathOf env) with
          | none =>
            rw [html_to_pdf_eq_readFail env html fs out hw hrun hs hread] at hb
            exact absurd hb (by simp)
          | some b2 =>
            rw [html_to_pdf_eq_success env html fs out b2 hw hrun hs hread]
            refine ⟨?_, fsRead_fsRemove_self _ _⟩
            rw [fsRead_fsRemove_ne _ _ _ (htmlPath_ne_pdfPath env), fsRead_fsRemove_self]
        · rw [html_to_pdf_eq_nonZero env html fs out hw hrun
            (Bool.not_eq_true out.success ▸ hs)] at hb
          exact absurd hb (by simp)
    · rw [html_to_pdf_eq_writeFail env html fs (Bool.not_eq_true env.writeOk ▸ hw)] at hb
      exact absurd hb (by simp)
  · intro hw e he
    cases hrun : runResult env with
    | none =>
      rw [html_to_pdf_eq_spawnFail env html fs hw hrun]
      exact fsRead_fsWrite_self fs (htmlPathOf env) (strBytes html)
    | some out =>
      by_cases hs : out.success = true
      · cases hread : fsRead (fsAfterRun env html fs) (pdfPathOf env) with
        | none =>
          rw [html_to_pdf_eq_readFail env html fs out hw hrun hs hread]
          exact fsRead_fsAfterRun_html env html fs
        | some b2 =>
          rw [html_to_pdf_eq_success env html fs out b2 hw hrun hs hread] at he
          exact absurd he (by simp)
      · rw [html_to_pdf_eq_nonZero env html fs out hw hrun
          (Bool.not_eq_true out.success ▸ hs)]
        exact fsRead_fsAfterRun_html env html fs

/-- C1 witness: the amended theorem applied to a fully successful call
(the source artifact is gone afterwards) and to a non-zero-exit call (the
source artifact remains). -/
theorem c1_cleanup_only_on_success_witness :
    fsRead ((html_to_pdf envSuccess "hello" []).2) (htmlPathOf envSuccess) = none ∧
    fsRead ((html_to_pdf envNonZero "hello" []).2) (htmlPathOf envNonZero) =
      some (strBytes "hello") := by
  constructor
  · exact ((c1_cleanup_only_on_success envSuccess "hello" []).1 [37, 80, 68, 70] (by decide)).1
  · exact (c1_cleanup_only_on_success envNonZero "hello" []).2 (by decide)
      (RenderError.RenderFailure ("wkhtmltopdf failed: " ++ "exit 1")) (by decide)

/-- C2: `html_to_pdf` fails with a `RenderFailure` embedding the captured
stderr exactly when the tool exits non-zero, fails with an `IOFailure`
when creating the source artifact or reading back the result fails, and
never returns bytes in a failure case. -/
theorem c2_render_error_taxonomy (env : Env) (html : String) (fs : FS) :
    (env.writeOk = false →
       (html_to_pdf env html fs).1 =
         Except.error (RenderError.IOFailure "Failed to create temporary HTML file")) ∧
    (∀ out, env.writeOk = true → runResult env = some out → out.success = false →
       (html_to_pdf env html fs).1 =
         Except.error (RenderError.RenderFailure ("wkhtmltopdf failed: " ++ out.stderr))) ∧
    (∀ out, env.writeOk = true → runResult env = some out → out.success = true →
       fsRead (fsAfterRun env html fs) (pdfPathOf env) = none →
       (html_to_pdf env html fs).1 =
         Except.error (RenderError.IOFailure "Failed to read generated PDF")) ∧
    (∀ e b, (html_to_pdf env html fs).1 = Except.error e →
       (html_to_pdf env html fs).1 ≠ Except.ok b) := by
  refine ⟨?_, ?_, ?_, ?_⟩
  · intro hw
    rw [html_to_pdf_eq_writeFail env html fs hw]
  · intro out hw hrun hs
    rw [html_to_pdf_eq_nonZero env html fs out hw hrun hs]
  · intro out hw hrun hs hread
    rw [html_to_pdf_eq_readFail env html fs out hw hrun hs hread]
  · intro e b he
    rw [he]
    simp

/-- C2 witness: the taxonomy theorem applied to a failed write, a non-zero
exit and a failed read-back. -/
theorem c2_render_error_taxonomy_witness :
    (html_to_pdf envWriteFail "hi" []).1 =
      Except.error (RenderError.IOFailure "Failed to create temporary HTML file") ∧
    (html_to_pdf envNonZero "hi" []).1 =
      Except.error (RenderError.RenderFailure ("wkhtmltopdf failed: " ++ "exit 1")) ∧
    (html_to_pdf envReadFail "hi" []).1 =
      Except.error (RenderError.IOFailure "Failed to read generated PDF") := by
  refine ⟨?_, ?_, ?_⟩
  · exact (c2_render_error_taxonomy envWriteFail "hi" []).1 rfl
  · exact (c2_render_error_taxonomy envNonZero "hi" []).2.1 (CmdOutput.mk false "exit 1")
      rfl rfl rfl
  · exact (c2_render_error_taxonomy envReadFail "hi" []).2.2.1 (CmdOutput.mk true "")
      rfl rfl rfl (by decide)

/-- C3: for every deserialized convert request, the handler answers 200
with the PDF bytes, content type `application/pdf` and the attachment
disposition header when rendering succeeds, and an empty 500 carrying no
error detail when rendering fails for any reason. -/
theorem c3_convert_responses (markdown_to_html : String → String) (env : Env)
    (fs : FS) (markdown : String) :
    (∀ b fs1,
       html_to_pdf env (markdown_to_html_converter markdown_to_html markdown) fs =
         (Except.ok b, fs1) →
       (convert_markdown_to_pdf markdown_to_html env fs markdown).1 =
         Except.ok { status := 200, contentType := some "application/pdf",
                     headers := [("Content-Disposition", "attachment; filename=\"document.pdf\"")],
                     body := Body.bytes b }) ∧
    (∀ e fs1,
       html_to_pdf env (markdown_to_html_converter markdown_to_html markdown) fs =
         (Except.error e, fs1) →
       (convert_markdown_to_pdf markdown_to_html env fs markdown).1 =
         Except.ok { status := 500, contentType := none, headers := [],
                     body := Body.empty }) := by
  constructor
  · intro b fs1 hb
    simp [convert_markdown_to_pdf, hb]
  · intro e fs1 he
    simp [convert_markdown_to_pdf, he]

/-- C3 witness: the handler theorem applied to a fully successful call and
to a non-zero-exit call. -/
theorem c3_convert_responses_witness :
    (convert_markdown_to_pdf (fun s => s) envSuccess [] "# Hi").1 =
      Except.ok { status := 200, contentType := some "application/pdf",
                  headers := [("Content-Disposition", "attachment; filename=\"document.pdf\"")],
                  body := Body.bytes [37, 80, 68, 70] } ∧
    (convert_markdown_to_pdf (fun s => s) envNonZero [] "# Hi").1 =
      Except.ok { status := 500, contentType := none, headers := [],
                  body := Body.empty } := by
  constructor
  · have hread :
        fsRead (fsAfterRun envSuccess (markdown_to_html_converter (fun s => s) "# Hi") [])
          (pdfPathOf envSuccess) = some [37, 80, 68, 70] :=
      fsRead_fsWrite_self
        (fsWrite [] (htmlPathOf envSuccess)
          (strBytes (markdown_to_html_converter (fun s => s) "# Hi")))
        (pdfPathOf envSuccess) [37, 80, 68, 70]
    exact (c3_convert_responses (fun s => s) envSuccess [] "# Hi").1 [37, 80, 68, 70] _
      (html_to_pdf_eq_success envSuccess (markdown_to_html_converter (fun s => s) "# Hi") []
        (CmdOutput.mk true "") [37, 80, 68, 70] rfl rfl rfl hread)
  · exact (c3_convert_responses (fun s => s) envNonZero [] "# Hi").2
      (RenderError.RenderFailure ("wkhtmltopdf failed: " ++ "exit 1")) _
      (html_to_pdf_eq_nonZero envNonZero (markdown_to_html_converter (fun s => s) "# Hi") []
        (CmdOutput.mk false "exit 1") rfl rfl rfl)

/-- C10: the convert handler is total at the framework boundary: it always
returns `Ok` with a response whose status is 200 or 500. -/
theorem c10_convert_total (markdown_to_html : String → String) (env : Env)
    (fs : FS) (markdown : String) :
    ∃ r, (convert_markdown_to_pdf markdown_to_html env fs markdown).1 = Except.ok r ∧
      (r.status = 200 ∨ r.status = 500) := by
  rcases h : html_to_pdf env (markdown_to_html_converter markdown_to_html markdown) fs
    with ⟨r, fs1⟩
  cases r with
  | ok b =>
    exact ⟨{ status := 200, contentType := some "application/pdf",
             headers := [("Content-Disposition", "attachment; filename=\"document.pdf\"")],
             body := Body.bytes b },
           by simp [convert_markdown_to_pdf, h], Or.inl rfl⟩
  | error e =>
    exact ⟨{ status := 500, contentType := none, headers := [], body := Body.empty },
           by simp [convert_markdown_to_pdf, h], Or.inr rfl⟩

/-- C4: the normalizer is total (a plain function of type
`String → String`, with no error channel, defined for every input
including the empty string) and pure: a second call on identical input
yields byte-identical output, and the output depends on nothing but the
conversion of the input. -/
theorem c4_normalize_total_pure (markdown_to_html : String → String) (markdown : String) :
    markdown_to_html_converter markdown_to_html markdown =
      markdown_to_html_converter markdown_to_html markdown ∧
    (∀ md2 : String → String, markdown_to_html markdown = md2 markdown →
       markdown_to_html_converter markdown_to_html markdown =
         markdown_to_html_converter md2 markdown) := by
  refine ⟨rfl, fun md2 h => ?_⟩
  simp [markdown_to_html_converter, h]

/-- C4 witness: the purity theorem applied to the identity conversion on
the empty markdown input. -/
theorem c4_normalize_total_pure_witness :
    markdown_to_html_converter (fun s => s) "" = markdown_to_html_converter (fun s => s) "" :=
  (c4_normalize_total_pure (fun s => s) "").2 (fun s => s) rfl

set_option maxRecDepth 100000 in
/-- C5: the normalizer output is exactly one fixed template around the
converted content — head and tail are input-independent constants — and
the head carries the page-size rule, the font-size override forcing
consistent sizing, and the URL word-breaking rule. -/
theorem c5_fixed_template (markdown_to_html : String → String) (markdown : String) :
    markdown_to_html_converter markdown_to_html markdown =
      htmlTemplateHead ++ markdown_to_html markdown ++ htmlTemplateTail ∧
    strContains htmlTemplateHead "size: A4" = true ∧
    strContains htmlTemplateHead "font-size: 1rem !important" = true ∧
    strContains htmlTemplateHead "word-break: break-all" = true := by
  refine ⟨rfl, by decide, by decide, by decide⟩

/-- C6: the health endpoint answers 200 with JSON status `healthy` and the
version when the probe of `wkhtmltopdf --version` succeeds, and 503 with
JSON status `unhealthy - wkhtmltopdf not found` (version still included)
when the probe fails. -/
theorem c6_health_responses (run : List String → Option CmdOutput) (version : String) :
    (∀ out, run healthProbeArgs = some out →
       health_check run version =
         Except.ok { status := 200, contentType := some "application/json", headers := [],
                     body := Body.json (serializeHealth ⟨"healthy", version⟩) }) ∧
    (run healthProbeArgs = none →
       health_check run version =
         Except.ok { status := 503, contentType := some "application/json", headers := [],
                     body := Body.json
                       (serializeHealth ⟨"unhealthy - wkhtmltopdf not found", version⟩) }) := by
  constructor
  · intro out h
    simp [health_check, h]
  · intro h
    simp [health_check, h]

/-- C6 witness: the health theorem applied to a succeeding and to a
failing probe. -/
theorem c6_health_responses_witness :
    health_check (fun _ => some (CmdOutput.mk true "")) "0.1.0" =
      Except.ok { status := 200, contentType := some "application/json", headers := [],
                  body := Body.json (serializeHealth ⟨"healthy", "0.1.0"⟩) } ∧
    health_check (fun _ => none) "0.1.0" =
      Except.ok { status := 503, contentType := some "application/json", headers := [],
                  body := Body.json
                    (serializeHealth ⟨"unhealthy - wkhtmltopdf not found", "0.1.0"⟩) } :=
  ⟨(c6_health_responses (fun _ => some (CmdOutput.mk true "")) "0.1.0").1
     (CmdOutput.mk true "") rfl,
   (c6_health_responses (fun _ => none) "0.1.0").2 rfl⟩

/-- C9: the health probe's verdict depends only on whether the spawn
succeeds: a spawned tool that exits non-zero still yields 200 `healthy`,
and the 503 branch is taken exactly when the spawn fails. -/
theorem c9_health_ignores_exit_status (run : List String → Option CmdOutput)
    (version : String) :
    (∀ out, run healthProbeArgs = some out → out.success = false →
       health_check run version =
         Except.ok { status := 200, contentType := some "application/json", headers := [],
                     body := Body.json (serializeHealth ⟨"healthy", version⟩) }) ∧
    (∀ r, health_check run version = Except.ok r →
       (r.status = 503 ↔ run healthProbeArgs = none)) := by
  constructor
  · intro out h _
    simp [health_check, h]
  · intro r hr
    cases h : run healthProbeArgs with
    | none =>
      simp [health_check, h] at hr
      simp [← hr]
    | some out =>
      simp [health_check, h] at hr
      simp [← hr, h]

/-- C9 witness: the exit-status theorem applied to a probe whose process
spawns but reports a non-zero exit. -/
theorem c9_health_ignores_exit_status_witness :
    health_check (fun _ => some (CmdOutput.mk false "err")) "0.1.0" =
      Except.ok { status := 200, contentType := some "application/json", headers := [],
                  body := Body.json (serializeHealth ⟨"healthy", "0.1.0"⟩) } :=
  (c9_health_ignores_exit_status (fun _ => some (CmdOutput.mk false "err")) "0.1.0").1
    (CmdOutput.mk false "err") rfl rfl

/-- C8: when the startup probe of the external tool fails, the process
prints the install-hint error and exits with code 1 without ever reaching
the serving state. -/
theorem c8_startup_aborts_without_tool (run : List String → Option CmdOutput)
    (h : run healthProbeArgs = none) :
    mainStartup run =
      StartOutcome.exit 1 "Error: wkhtmltopdf is not installed. Please install it first." ∧
    ∀ addr routes, mainStartup run ≠ StartOutcome.serve addr routes := by
  constructor
  · simp [mainStartup, h]
  · intro addr routes
    simp [mainStartup, h]

/-- C8 witness: the startup theorem applied to an environment without the
tool. -/
theorem c8_startup_aborts_without_tool_witness :
    mainStartup (fun _ => none) =
      StartOutcome.exit 1 "Error: wkhtmltopdf is not installed. Please install it first." :=
  (c8_startup_aborts_without_tool (fun _ => none) rfl).1

/-- C7: the source artifact of a job is written at a path whose stem is
the job's fresh identifier, the output path is derived from it by
replacing only the extension (same directory, same stem), and two jobs
with distinct identifiers collide on neither artifact path. -/
theorem c7_artifact_paths (env env2 : Env) (html : String) (fs : FS) :
    (env.writeOk = true →
       create_temp_file env html "html" fs =
         Except.ok (htmlPathOf env, fsWrite fs (htmlPathOf env) (strBytes html))) ∧
    (htmlPathOf env).stem = env.uuid ∧
    pdfPathOf env = (htmlPathOf env).withExt "pdf" ∧
    (pdfPathOf env).dir = (htmlPathOf env).dir ∧
    (pdfPathOf env).stem = (htmlPathOf env).stem ∧
    (env.uuid ≠ env2.uuid →
       htmlPathOf env ≠ htmlPathOf env2 ∧ pdfPathOf env ≠ pdfPathOf env2) := by
  refine ⟨?_, rfl, rfl, rfl, rfl, ?_⟩
  · intro hw
    simp [create_temp_file, hw, htmlPathOf]
  · intro hne
    constructor
    · intro h
      injection h with h1 h2 h3
      exact hne h2
    · intro h
      injection h with h1 h2 h3
      exact hne h2

/-- C7 witness: the path theorem applied to a concrete job and to two jobs
with distinct identifiers. -/
theorem c7_artifact_paths_witness :
    create_temp_file envSuccess "x" "html" [] =
      Except.ok (htmlPathOf envSuccess, fsWrite [] (htmlPathOf envSuccess) (strBytes "x")) ∧
    htmlPathOf envSuccess ≠ htmlPathOf envNonZero :=
  ⟨(c7_artifact_paths envSuccess envNonZero "x" []).1 rfl,
   ((c7_artifact_paths envSuccess envNonZero "x" []).2.2.2.2.2 (by decide)).1⟩

end MdToPdf
